import Mathlib

/-!
Verification of the ArcPay payment-operations facade
(`src/arcpaykit_py/arcpaykit/payments.py`).

The facade builds a JSON-style body per call and delegates transport to an
injected client exposing `request(path, method, data)`.  We embed bodies as
association lists of wire-format key to JSON value, each operation as the
function that builds its body and performs the single `request` call, and the
client as an abstract record whose `request` field returns a value of an
arbitrary result type, so that the same definitions can be instantiated with
a reifying client (to inspect the request), a logging client (to count
invocations) or an `Except`-valued client (to study error propagation).
-/

namespace ArcPay

/-- A JSON-style value as it appears in a request body built by the facade.
`null` is included so that the absence-is-omission invariant (no key is ever
mapped to a JSON null) is a statement, not a typing accident. -/
inductive Value where
  | str : String → Value
  | int : Int → Value
  | bool : Bool → Value
  | null : Value
  deriving DecidableEq, Repr

/-- A request body: an insertion-ordered mapping of wire-format field names
to values, as built by the Python `dict` literals and conditional inserts. -/
abbrev Body := List (String × Value)

/-- The wire-level request an operation hands to the transport collaborator:
path, HTTP method, and optional JSON body. -/
structure Request where
  path : String
  method : String
  data : Option Body
  deriving DecidableEq, Repr

/-- The injected transport collaborator: a single `request` capability taking
path, method and optional body.  The result type `ρ` is abstract: the facade
treats the response as opaque and passes it through. -/
structure ArcPayClient (ρ : Type) where
  request : String → String → Option Body → ρ

/-- Modelled from the spec: `client.py` (the `ArcPayClient` implementation) is
not under `src/`; only its callers are.  `Payments.retrieve` invokes
`self.client.request(path)` with the method and data parameters left at their
defaults.  Per the spec's collaborator contract and its interface table
(`retrieve | GET | /api/payments/{payment_id} | —`), the omitted method
defaults to GET and the omitted data to no body. -/
def ArcPayClient.requestDefault {ρ : Type} (c : ArcPayClient ρ) (path : String) : ρ :=
  c.request path "GET" none

/-- One conditional insert `if x is not None: data[key] = x`: the entries it
contributes to the body (one when the value is supplied, none otherwise). -/
def optEntry (k : String) : Option Value → Body
  | some v => [(k, v)]
  | none => []

namespace Payments

/-- The body built by `Payments.create`: the required `amount` and
`merchantWallet` fields followed by one conditional insert per optional
parameter, in source order. -/
def createData (amount merchant_wallet : String)
    (currency settlement_currency payment_asset : Option String)
    (payment_chain_id : Option Int)
    (conversion_path estimated_fees description customer_email : Option String)
    (expires_in_minutes : Option Int)
    (is_test gas_sponsored : Option Bool) : Body :=
  [("amount", Value.str amount), ("merchantWallet", Value.str merchant_wallet)]
    ++ optEntry "currency" (currency.map Value.str)
    ++ optEntry "settlementCurrency" (settlement_currency.map Value.str)
    ++ optEntry "paymentAsset" (payment_asset.map Value.str)
    ++ optEntry "paymentChainId" (payment_chain_id.map Value.int)
    ++ optEntry "conversionPath" (conversion_path.map Value.str)
    ++ optEntry "estimatedFees" (estimated_fees.map Value.str)
    ++ optEntry "description" (description.map Value.str)
    ++ optEntry "customerEmail" (customer_email.map Value.str)
    ++ optEntry "expiresInMinutes" (expires_in_minutes.map Value.int)
    ++ optEntry "isTest" (is_test.map Value.bool)
    ++ optEntry "gasSponsored" (gas_sponsored.map Value.bool)

/-- `Payments.create`: build the body and POST it to `/api/payments/create`. -/
def create {ρ : Type} (c : ArcPayClient ρ) (amount merchant_wallet : String)
    (currency settlement_currency payment_asset : Option String)
    (payment_chain_id : Option Int)
    (conversion_path estimated_fees description customer_email : Option String)
    (expires_in_minutes : Option Int)
    (is_test gas_sponsored : Option Bool) : ρ :=
  c.request "/api/payments/create" "POST"
    (some (createData amount merchant_wallet currency settlement_currency
      payment_asset payment_chain_id conversion_path estimated_fees
      description customer_email expires_in_minutes is_test gas_sponsored))

/-- `Payments.retrieve`: GET `/api/payments/{payment_id}` (an f-string, i.e.
plain string concatenation) with no body, via the client's defaults. -/
def retrieve {ρ : Type} (c : ArcPayClient ρ) (payment_id : String) : ρ :=
  c.requestDefault ("/api/payments/" ++ payment_id)

/-- The body built by `Payments.submit_tx`: required `paymentId`, `txHash`,
`payerWallet` followed by the conditional inserts, in source order. -/
def submitTxData (payment_id tx_hash payer_wallet : String)
    (customer_email customer_name : Option String)
    (gas_sponsored : Option Bool) : Body :=
  [("paymentId", Value.str payment_id), ("txHash", Value.str tx_hash),
      ("payerWallet", Value.str payer_wallet)]
    ++ optEntry "customerEmail" (customer_email.map Value.str)
    ++ optEntry "customerName" (customer_name.map Value.str)
    ++ optEntry "gasSponsored" (gas_sponsored.map Value.bool)

/-- `Payments.submit_tx`: build the body and POST it to
`/api/payments/submit-tx`. -/
def submit_tx {ρ : Type} (c : ArcPayClient ρ) (payment_id tx_hash payer_wallet : String)
    (customer_email customer_name : Option String)
    (gas_sponsored : Option Bool) : ρ :=
  c.request "/api/payments/submit-tx" "POST"
    (some (submitTxData payment_id tx_hash payer_wallet customer_email
      customer_name gas_sponsored))

/-- The body built by `Payments.confirm`: same construction as
`submitTxData`, written out as in the source. -/
def confirmData (payment_id tx_hash payer_wallet : String)
    (customer_email customer_name : Option String)
    (gas_sponsored : Option Bool) : Body :=
  [("paymentId", Value.str payment_id), ("txHash", Value.str tx_hash),
      ("payerWallet", Value.str payer_wallet)]
    ++ optEntry "customerEmail" (customer_email.map Value.str)
    ++ optEntry "customerName" (customer_name.map Value.str)
    ++ optEntry "gasSponsored" (gas_sponsored.map Value.bool)

/-- `Payments.confirm`: build the body and POST it to the legacy endpoint
`/api/payments/confirm`. -/
def confirm {ρ : Type} (c : ArcPayClient ρ) (payment_id tx_hash payer_wallet : String)
    (customer_email customer_name : Option String)
    (gas_sponsored : Option Bool) : ρ :=
  c.request "/api/payments/confirm" "POST"
    (some (confirmData payment_id tx_hash payer_wallet customer_email
      customer_name gas_sponsored))

/-- The body built by `Payments.fail`: `paymentId` plus an optional
`reason`. -/
def failData (payment_id : String) (reason : Option String) : Body :=
  [("paymentId", Value.str payment_id)] ++ optEntry "reason" (reason.map Value.str)

/-- `Payments.fail`: build the body and POST it to `/api/payments/fail`. -/
def fail {ρ : Type} (c : ArcPayClient ρ) (payment_id : String)
    (reason : Option String) : ρ :=
  c.request "/api/payments/fail" "POST" (some (failData payment_id reason))

/-- The body built by `Payments.expire`: just the `paymentId`. -/
def expireData (payment_id : String) : Body :=
  [("paymentId", Value.str payment_id)]

/-- `Payments.expire`: build the body and POST it to `/api/payments/expire`. -/
def expire {ρ : Type} (c : ArcPayClient ρ) (payment_id : String) : ρ :=
  c.request "/api/payments/expire" "POST" (some (expireData payment_id))

end Payments

/-- A client that reifies the call made to it, letting theorems inspect the
single request an operation issues. -/
def reqClient : ArcPayClient Request :=
  ⟨Request.mk⟩

/-- A client that logs the calls made to it, letting theorems count how many
times an operation invokes the transport. -/
def logClient : ArcPayClient (List Request) :=
  ⟨fun p m d => [⟨p, m, d⟩]⟩

/-- An `Except`-valued client that always raises, for exercising the error
pass-through of the facade. -/
def errClient : ArcPayClient (Except Nat Nat) :=
  ⟨fun _ _ _ => Except.error 7⟩

theorem lookup_append (k : String) (l₁ l₂ : Body) :
    List.lookup k (l₁ ++ l₂) = (List.lookup k l₁).or (List.lookup k l₂) := by
  induction l₁ with
  | nil => simp [List.lookup]
  | cons a t ih =>
    rcases a with ⟨k₂, v⟩
    simp only [List.cons_append, List.lookup]
    cases h : (k == k₂) <;> simp [ih]

theorem lookup_optEntry_self (k : String) (v : Option Value) :
    List.lookup k (optEntry k v) = v := by
  cases v <;> simp [optEntry, List.lookup]

theorem lookup_optEntry_ne {k k₂ : String} (h : ¬ k = k₂) (v : Option Value) :
    List.lookup k (optEntry k₂ v) = none := by
  cases v <;> simp [optEntry, List.lookup, beq_false_of_ne h]

/-- Claim C1: for every operation of the facade and every optional parameter,
the camel-case wire key is looked up in the outgoing body to exactly the
supplied value when the caller supplied one, and to `none` (the key is
absent, never null or empty) when the caller did not: the lookup of each
wire key equals the optional parameter mapped through its value encoding. -/
theorem optional_field_presence :
    (∀ (amount merchant_wallet : String)
        (currency settlement_currency payment_asset : Option String)
        (payment_chain_id : Option Int)
        (conversion_path estimated_fees description customer_email : Option String)
        (expires_in_minutes : Option Int)
        (is_test gas_sponsored : Option Bool),
      List.lookup "currency" (Payments.createData amount merchant_wallet currency
          settlement_currency payment_asset payment_chain_id conversion_path
          estimated_fees description customer_email expires_in_minutes is_test
          gas_sponsored) = currency.map Value.str ∧
      List.lookup "settlementCurrency" (Payments.createData amount merchant_wallet currency
          settlement_currency payment_asset payment_chain_id conversion_path
          estimated_fees description customer_email expires_in_minutes is_test
          gas_sponsored) = settlement_currency.map Value.str ∧
      List.lookup "paymentAsset" (Payments.createData amount merchant_wallet currency
          settlement_currency payment_asset payment_chain_id conversion_path
          estimated_fees description customer_email expires_in_minutes is_test
          gas_sponsored) = payment_asset.map Value.str ∧
      List.lookup "paymentChainId" (Payments.createData amount merchant_wallet currency
          settlement_currency payment_asset payment_chain_id conversion_path
          estimated_fees description customer_email expires_in_minutes is_test
          gas_sponsored) = payment_chain_id.map Value.int ∧
      List.lookup "conversionPath" (Payments.createData amount merchant_wallet currency
          settlement_currency payment_asset payment_chain_id conversion_path
          estimated_fees description customer_email expires_in_minutes is_test
          gas_sponsored) = conversion_path.map Value.str ∧
      List.lookup "estimatedFees" (Payments.createData amount merchant_wallet currency
          settlement_currency payment_asset payment_chain_id conversion_path
          estimated_fees description customer_email expires_in_minutes is_test
          gas_sponsored) = estimated_fees.map Value.str ∧
      List.lookup "description" (Payments.createData amount merchant_wallet currency
          settlement_currency payment_asset payment_chain_id conversion_path
          estimated_fees description customer_email expires_in_minutes is_test
          gas_sponsored) = description.map Value.str ∧
      List.lookup "customerEmail" (Payments.createData amount merchant_wallet currency
          settlement_currency payment_asset payment_chain_id conversion_path
          estimated_fees description customer_email expires_in_minutes is_test
          gas_sponsored) = customer_email.map Value.str ∧
      List.lookup "expiresInMinutes" (Payments.createData amount merchant_wallet currency
          settlement_currency payment_asset payment_chain_id conversion_path
          estimated_fees description customer_email expires_in_minutes is_test
          gas_sponsored) = expires_in_minutes.map Value.int ∧
      List.lookup "isTest" (Payments.createData amount merchant_wallet currency
          settlement_currency payment_asset payment_chain_id conversion_path
          estimated_fees description customer_email expires_in_minutes is_test
          gas_sponsored) = is_test.map Value.bool ∧
      List.lookup "gasSponsored" (Payments.createData amount merchant_wallet currency
          settlement_currency payment_asset payment_chain_id conversion_path
          estimated_fees description customer_email expires_in_minutes is_test
          gas_sponsored) = gas_sponsored.map Value.bool) ∧
    (∀ (payment_id tx_hash payer_wallet : String)
        (customer_email customer_name : Option String)
        (gas_sponsored : Option Bool),
      List.lookup "customerEmail" (Payments.submitTxData payment_id tx_hash payer_wallet
          customer_email customer_name gas_sponsored) = customer_email.map Value.str ∧
      List.lookup "customerName" (Payments.submitTxData payment_id tx_hash payer_wallet
          customer_email customer_name gas_sponsored) = customer_name.map Value.str ∧
      List.lookup "gasSponsored" (Payments.submitTxData payment_id tx_hash payer_wallet
          customer_email customer_name gas_sponsored) = gas_sponsored.map Value.bool) ∧
    (∀ (payment_id tx_hash payer_wallet : String)
        (customer_email customer_name : Option String)
        (gas_sponsored : Option Bool),
      List.lookup "customerEmail" (Payments.confirmData payment_id tx_hash payer_wallet
          customer_email customer_name gas_sponsored) = customer_email.map Value.str ∧
      List.lookup "customerName" (Payments.confirmData payment_id tx_hash payer_wallet
          customer_email customer_name gas_sponsored) = customer_name.map Value.str ∧
      List.lookup "gasSponsored" (Payments.confirmData payment_id tx_hash payer_wallet
          customer_email customer_name gas_sponsored) = gas_sponsored.map Value.bool) ∧
    (∀ (payment_id : String) (reason : Option String),
      List.lookup "reason" (Payments.failData payment_id reason) = reason.map Value.str) := by
  refine ⟨?_, ?_, ?_, ?_⟩ <;> intros <;>
    simp [Payments.createData, Payments.submitTxData, Payments.confirmData,
      Payments.failData, lookup_append, lookup_optEntry_self, lookup_optEntry_ne,
      List.lookup, Option.or_none, Option.none_or]

/-- Claim C2: `create` with `amount="100.00"`, `merchant_wallet="0xabc"` and no
optional parameters POSTs to `/api/payments/create` exactly the two-key body
`{amount: "100.00", merchantWallet: "0xabc"}`; and for every `create` call the
required keys `amount` and `merchantWallet` are present with the supplied
values. -/
theorem create_required_fields :
    (Payments.create reqClient "100.00" "0xabc" none none none none none none
        none none none none none =
      ⟨"/api/payments/create", "POST",
        some [("amount", Value.str "100.00"), ("merchantWallet", Value.str "0xabc")]⟩) ∧
    (∀ amount merchant_wallet : String,
      Payments.create reqClient amount merchant_wallet none none none none none
          none none none none none none =
        ⟨"/api/payments/create", "POST",
          some [("amount", Value.str amount),
            ("merchantWallet", Value.str merchant_wallet)]⟩) ∧
    (∀ (amount merchant_wallet : String)
        (currency settlement_currency payment_asset : Option String)
        (payment_chain_id : Option Int)
        (conversion_path estimated_fees description customer_email : Option String)
        (expires_in_minutes : Option Int)
        (is_test gas_sponsored : Option Bool),
      List.lookup "amount" (Payments.createData amount merchant_wallet currency
          settlement_currency payment_asset payment_chain_id conversion_path
          estimated_fees description customer_email expires_in_minutes is_test
          gas_sponsored) = some (Value.str amount) ∧
      List.lookup "merchantWallet" (Payments.createData amount merchant_wallet currency
          settlement_currency payment_asset payment_chain_id conversion_path
          estimated_fees description customer_email expires_in_minutes is_test
          gas_sponsored) = some (Value.str merchant_wallet)) := by
  refine ⟨rfl, fun _ _ => rfl, ?_⟩
  intros
  simp [Payments.createData, lookup_append, List.lookup, Option.or_none,
    Option.none_or]

/-- Claim C3: for identical argument tuples, `submit_tx` and `confirm` build
identical bodies and both POST, differing only in the target path:
`/api/payments/submit-tx` versus `/api/payments/confirm`, which are distinct
paths. -/
theorem submit_tx_confirm_same_shape :
    (∀ (payment_id tx_hash payer_wallet : String)
        (customer_email customer_name : Option String)
        (gas_sponsored : Option Bool),
      (Payments.submit_tx reqClient payment_id tx_hash payer_wallet customer_email
          customer_name gas_sponsored).data =
        (Payments.confirm reqClient payment_id tx_hash payer_wallet customer_email
          customer_name gas_sponsored).data ∧
      (Payments.submit_tx reqClient payment_id tx_hash payer_wallet customer_email
          customer_name gas_sponsored).method = "POST" ∧
      (Payments.confirm reqClient payment_id tx_hash payer_wallet customer_email
          customer_name gas_sponsored).method = "POST" ∧
      (Payments.submit_tx reqClient payment_id tx_hash payer_wallet customer_email
          customer_name gas_sponsored).path = "/api/payments/submit-tx" ∧
      (Payments.confirm reqClient payment_id tx_hash payer_wallet customer_email
          customer_name gas_sponsored).path = "/api/payments/confirm") ∧
    "/api/payments/submit-tx" ≠ "/api/payments/confirm" :=
  ⟨fun _ _ _ _ _ _ => ⟨rfl, rfl, rfl, rfl, rfl⟩, by decide⟩

/-- Claim C4: `submit_tx` with no optional parameters POSTs to
`/api/payments/submit-tx` exactly the three-key body
`{paymentId, txHash, payerWallet}`, in particular at the concrete inputs
`"pay_1"`, `"0xhash"`, `"0xpayer"`. -/
theorem submit_tx_minimal_body :
    (∀ payment_id tx_hash payer_wallet : String,
      Payments.submit_tx reqClient payment_id tx_hash payer_wallet none none none =
        ⟨"/api/payments/submit-tx", "POST",
          some [("paymentId", Value.str payment_id), ("txHash", Value.str tx_hash),
            ("payerWallet", Value.str payer_wallet)]⟩) ∧
    Payments.submit_tx reqClient "pay_1" "0xhash" "0xpayer" none none none =
      ⟨"/api/payments/submit-tx", "POST",
        some [("paymentId", Value.str "pay_1"), ("txHash", Value.str "0xhash"),
          ("payerWallet", Value.str "0xpayer")]⟩ :=
  ⟨fun _ _ _ => rfl, rfl⟩

/-- Claim C5: `retrieve` issues a GET whose path is the endpoint joined with
the identifier (so the path contains the identifier literally), sends no
body, and returns the transport collaborator's response unmodified, for every
client and every result type. -/
theorem retrieve_get_passthrough :
    (∀ (ρ : Type) (c : ArcPayClient ρ) (payment_id : String),
      Payments.retrieve c payment_id =
        c.request ("/api/payments/" ++ payment_id) "GET" none) ∧
    (Payments.retrieve reqClient "pay_123").path = "/api/payments/" ++ "pay_123" ∧
    (Payments.retrieve reqClient "pay_123").method = "GET" ∧
    (Payments.retrieve reqClient "pay_123").data = none :=
  ⟨fun _ _ _ => rfl, rfl, rfl, rfl⟩

/-- Claim C6: `fail` with no reason POSTs to `/api/payments/fail` exactly
`{paymentId}`, and with a reason exactly `{paymentId, reason}`. -/
theorem fail_body :
    (∀ payment_id : String,
      Payments.fail reqClient payment_id none =
        ⟨"/api/payments/fail", "POST", some [("paymentId", Value.str payment_id)]⟩) ∧
    (∀ payment_id reason : String,
      Payments.fail reqClient payment_id (some reason) =
        ⟨"/api/payments/fail", "POST",
          some [("paymentId", Value.str payment_id), ("reason", Value.str reason)]⟩) :=
  ⟨fun _ => rfl, fun _ _ => rfl⟩

/-- Claim C7: no operation catches, classifies or transforms an error: for
every operation, when the transport's `request` call on the operation's
request evaluates to an error, the operation returns that very error and
produces no alternative result. -/
theorem error_passthrough :
    ∀ (E R : Type) (c : ArcPayClient (Except E R)) (e : E),
      (∀ (amount merchant_wallet : String)
          (currency settlement_currency payment_asset : Option String)
          (payment_chain_id : Option Int)
          (conversion_path estimated_fees description customer_email : Option String)
          (expires_in_minutes : Option Int)
          (is_test gas_sponsored : Option Bool),
        c.request "/api/payments/create" "POST"
            (some (Payments.createData amount merchant_wallet currency
              settlement_currency payment_asset payment_chain_id conversion_path
              estimated_fees description customer_email expires_in_minutes
              is_test gas_sponsored)) = Except.error e →
        Payments.create c amount merchant_wallet currency settlement_currency
            payment_asset payment_chain_id conversion_path estimated_fees
            description customer_email expires_in_minutes is_test gas_sponsored =
          Except.error e) ∧
      (∀ payment_id : String,
        c.request ("/api/payments/" ++ payment_id) "GET" none = Except.error e →
        Payments.retrieve c payment_id = Except.error e) ∧
      (∀ (payment_id tx_hash payer_wallet : String)
          (customer_email customer_name : Option String)
          (gas_sponsored : Option Bool),
        c.request "/api/payments/submit-tx" "POST"
            (some (Payments.submitTxData payment_id tx_hash payer_wallet
              customer_email customer_name gas_sponsored)) = Except.error e →
        Payments.submit_tx c payment_id tx_hash payer_wallet customer_email
            customer_name gas_sponsored = Except.error e) ∧
      (∀ (payment_id tx_hash payer_wallet : String)
          (customer_email customer_name : Option String)
          (gas_sponsored : Option Bool),
        c.request "/api/payments/confirm" "POST"
            (some (Payments.confirmData payment_id tx_hash payer_wallet
              customer_email customer_name gas_sponsored)) = Except.error e →
        Payments.confirm c payment_id tx_hash payer_wallet customer_email
            customer_name gas_sponsored = Except.error e) ∧
      (∀ (payment_id : String) (reason : Option String),
        c.request "/api/payments/fail" "POST"
            (some (Payments.failData payment_id reason)) = Except.error e →
        Payments.fail c payment_id reason = Except.error e) ∧
      (∀ payment_id : String,
        c.request "/api/payments/expire" "POST"
            (some (Payments.expireData payment_id)) = Except.error e →
        Payments.expire c payment_id = Except.error e) :=
  fun _ _ _ _ =>
    ⟨fun _ _ _ _ _ _ _ _ _ _ _ _ _ h => h, fun _ h => h, fun _ _ _ _ _ _ h => h,
      fun _ _ _ _ _ _ h => h, fun _ _ h => h, fun _ h => h⟩

/-- Witness for C7: a client that always raises error 7 makes `fail` return
exactly that error. -/
theorem error_passthrough_witness :
    Payments.fail errClient "pay_1" none = Except.error 7 :=
  (error_passthrough Nat Nat errClient 7).2.2.2.2.1 "pay_1" none rfl

/-- Claim C8: every operation invokes the transport's `request` capability
exactly once and returns that single response: over an arbitrary result type
the operation equals a single `request` application, and under the logging
client the log of each call has length exactly one. -/
theorem single_invocation :
    (∀ (amount merchant_wallet : String)
        (currency settlement_currency payment_asset : Option String)
        (payment_chain_id : Option Int)
        (conversion_path estimated_fees description customer_email : Option String)
        (expires_in_minutes : Option Int)
        (is_test gas_sponsored : Option Bool),
      (∀ (ρ : Type) (c : ArcPayClient ρ),
        Payments.create c amount merchant_wallet currency settlement_currency
            payment_asset payment_chain_id conversion_path estimated_fees
            description customer_email expires_in_minutes is_test gas_sponsored =
          c.request "/api/payments/create" "POST"
            (some (Payments.createData amount merchant_wallet currency
              settlement_currency payment_asset payment_chain_id conversion_path
              estimated_fees description customer_email expires_in_minutes
              is_test gas_sponsored))) ∧
      (Payments.create logClient amount merchant_wallet currency
          settlement_currency payment_asset payment_chain_id conversion_path
          estimated_fees description customer_email expires_in_minutes is_test
          gas_sponsored).length = 1) ∧
    (∀ payment_id : String,
      (∀ (ρ : Type) (c : ArcPayClient ρ),
        Payments.retrieve c payment_id =
          c.request ("/api/payments/" ++ payment_id) "GET" none) ∧
      (Payments.retrieve logClient payment_id).length = 1) ∧
    (∀ (payment_id tx_hash payer_wallet : String)
        (customer_email customer_name : Option String)
        (gas_sponsored : Option Bool),
      (∀ (ρ : Type) (c : ArcPayClient ρ),
        Payments.submit_tx c payment_id tx_hash payer_wallet customer_email
            customer_name gas_sponsored =
          c.request "/api/payments/submit-tx" "POST"
            (some (Payments.submitTxData payment_id tx_hash payer_wallet
              customer_email customer_name gas_sponsored))) ∧
      (Payments.submit_tx logClient payment_id tx_hash payer_wallet
          customer_email customer_name gas_sponsored).length = 1) ∧
    (∀ (payment_id tx_hash payer_wallet : String)
        (customer_email customer_name : Option String)
        (gas_sponsored : Option Bool),
      (∀ (ρ : Type) (c : ArcPayClient ρ),
        Payments.confirm c payment_id tx_hash payer_wallet customer_email
            customer_name gas_sponsored =
          c.request "/api/payments/confirm" "POST"
            (some (Payments.confirmData payment_id tx_hash payer_wallet
              customer_email customer_name gas_sponsored))) ∧
      (Payments.confirm logClient payment_id tx_hash payer_wallet customer_email
          customer_name gas_sponsored).length = 1) ∧
    (∀ (payment_id : String) (reason : Option String),
      (∀ (ρ : Type) (c : ArcPayClient ρ),
        Payments.fail c payment_id reason =
          c.request "/api/payments/fail" "POST"
            (some (Payments.failData payment_id reason))) ∧
      (Payments.fail logClient payment_id reason).length = 1) ∧
    (∀ payment_id : String,
      (∀ (ρ : Type) (c : ArcPayClient ρ),
        Payments.expire c payment_id =
          c.request "/api/payments/expire" "POST"
            (some (Payments.expireData payment_id))) ∧
      (Payments.expire logClient payment_id).length = 1) :=
  ⟨fun _ _ _ _ _ _ _ _ _ _ _ _ _ => ⟨fun _ _ => rfl, rfl⟩,
    fun _ => ⟨fun _ _ => rfl, rfl⟩,
    fun _ _ _ _ _ _ => ⟨fun _ _ => rfl, rfl⟩,
    fun _ _ _ _ _ _ => ⟨fun _ _ => rfl, rfl⟩,
    fun _ _ => ⟨fun _ _ => rfl, rfl⟩,
    fun _ => ⟨fun _ _ => rfl, rfl⟩⟩

theorem str_ne_null (s : String) : Value.str s ≠ Value.null :=
  fun h => Value.noConfusion h

theorem int_ne_null (n : Int) : Value.int n ≠ Value.null :=
  fun h => Value.noConfusion h

theorem bool_ne_null (b : Bool) : Value.bool b ≠ Value.null :=
  fun h => Value.noConfusion h

theorem notNull_append {l₁ l₂ : Body}
    (h₁ : ∀ p ∈ l₁, p.2 ≠ Value.null) (h₂ : ∀ p ∈ l₂, p.2 ≠ Value.null) :
    ∀ p ∈ l₁ ++ l₂, p.2 ≠ Value.null := by
  intro p hp
  rcases List.mem_append.1 hp with h | h
  · exact h₁ p h
  · exact h₂ p h

theorem notNull_optEntry {α : Type} (f : α → Value) (hf : ∀ a, f a ≠ Value.null)
    (k : String) (o : Option α) :
    ∀ p ∈ optEntry k (o.map f), p.2 ≠ Value.null := by
  intro p hp
  cases o with
  | none => simp [optEntry] at hp
  | some a =>
    simp [optEntry] at hp
    subst hp
    exact hf a

/-- Claim C9: no constructed body ever maps a key to the JSON null value:
absence of an optional parameter is encoded by the `none` sentinel (so
explicitly passing `none` is the same call as omitting the parameter), and
every value inserted into any operation's body is a string, integer or
boolean, never `null`. -/
theorem no_null_values :
    (∀ (amount merchant_wallet : String)
        (currency settlement_currency payment_asset : Option String)
        (payment_chain_id : Option Int)
        (conversion_path estimated_fees description customer_email : Option String)
        (expires_in_minutes : Option Int)
        (is_test gas_sponsored : Option Bool),
      ∀ p ∈ Payments.createData amount merchant_wallet currency
          settlement_currency payment_asset payment_chain_id conversion_path
          estimated_fees description customer_email expires_in_minutes is_test
          gas_sponsored, p.2 ≠ Value.null) ∧
    (∀ (payment_id tx_hash payer_wallet : String)
        (customer_email customer_name : Option String)
        (gas_sponsored : Option Bool),
      ∀ p ∈ Payments.submitTxData payment_id tx_hash payer_wallet customer_email
          customer_name gas_sponsored, p.2 ≠ Value.null) ∧
    (∀ (payment_id tx_hash payer_wallet : String)
        (customer_email customer_name : Option String)
        (gas_sponsored : Option Bool),
      ∀ p ∈ Payments.confirmData payment_id tx_hash payer_wallet customer_email
          customer_name gas_sponsored, p.2 ≠ Value.null) ∧
    (∀ (payment_id : String) (reason : Option String),
      ∀ p ∈ Payments.failData payment_id reason, p.2 ≠ Value.null) ∧
    (∀ payment_id : String,
      ∀ p ∈ Payments.expireData payment_id, p.2 ≠ Value.null) := by
  refine ⟨?_, ?_, ?_, ?_, ?_⟩
  · intro amount merchant_wallet currency settlement_currency payment_asset
      payment_chain_id conversion_path estimated_fees description customer_email
      expires_in_minutes is_test gas_sponsored
    have hbase : ∀ p ∈ ([("amount", Value.str amount),
        ("merchantWallet", Value.str merchant_wallet)] : Body), p.2 ≠ Value.null := by
      intro p hp
      simp only [List.mem_cons, List.not_mem_nil, or_false] at hp
      rcases hp with rfl | rfl
      · exact str_ne_null amount
      · exact str_ne_null merchant_wallet
    exact notNull_append (notNull_append (notNull_append (notNull_append
      (notNull_append (notNull_append (notNull_append (notNull_append
      (notNull_append (notNull_append (notNull_append hbase
      (notNull_optEntry Value.str str_ne_null _ _))
      (notNull_optEntry Value.str str_ne_null _ _))
      (notNull_optEntry Value.str str_ne_null _ _))
      (notNull_optEntry Value.int int_ne_null _ _))
      (notNull_optEntry Value.str str_ne_null _ _))
      (notNull_optEntry Value.str str_ne_null _ _))
      (notNull_optEntry Value.str str_ne_null _ _))
      (notNull_optEntry Value.str str_ne_null _ _))
      (notNull_optEntry Value.int int_ne_null _ _))
      (notNull_optEntry Value.bool bool_ne_null _ _))
      (notNull_optEntry Value.bool bool_ne_null _ _)
  · intro payment_id tx_hash payer_wallet customer_email customer_name gas_sponsored
    have hbase : ∀ p ∈ ([("paymentId", Value.str payment_id),
        ("txHash", Value.str tx_hash),
        ("payerWallet", Value.str payer_wallet)] : Body), p.2 ≠ Value.null := by
      intro p hp
      simp only [List.mem_cons, List.not_mem_nil, or_false] at hp
      rcases hp with rfl | rfl | rfl
      · exact str_ne_null payment_id
      · exact str_ne_null tx_hash
      · exact str_ne_null payer_wallet
    exact notNull_append (notNull_append (notNull_append hbase
      (notNull_optEntry Value.str str_ne_null _ _))
      (notNull_optEntry Value.str str_ne_null _ _))
      (notNull_optEntry Value.bool bool_ne_null _ _)
  · intro payment_id tx_hash payer_wallet customer_email customer_name gas_sponsored
    have hbase : ∀ p ∈ ([("paymentId", Value.str payment_id),
        ("txHash", Value.str tx_hash),
        ("payerWallet", Value.str payer_wallet)] : Body), p.2 ≠ Value.null := by
      intro p hp
      simp only [List.mem_cons, List.not_mem_nil, or_false] at hp
      rcases hp with rfl | rfl | rfl
      · exact str_ne_null payment_id
      · exact str_ne_null tx_hash
      · exact str_ne_null payer_wallet
    exact notNull_append (notNull_append (notNull_append hbase
      (notNull_optEntry Value.str str_ne_null _ _))
      (notNull_optEntry Value.str str_ne_null _ _))
      (notNull_optEntry Value.bool bool_ne_null _ _)
  · intro payment_id reason
    have hbase : ∀ p ∈ ([("paymentId", Value.str payment_id)] : Body),
        p.2 ≠ Value.null := by
      intro p hp
      simp only [List.mem_cons, List.not_mem_nil, or_false] at hp
      subst hp
      exact str_ne_null payment_id
    exact notNull_append hbase (notNull_optEntry Value.str str_ne_null _ _)
  · intro payment_id p hp
    simp only [Payments.expireData, List.mem_cons, List.not_mem_nil, or_false] at hp
    subst hp
    exact str_ne_null payment_id

/-- Claim C10: `retrieve` performs no validation, escaping or encoding of the
identifier: the requested path is exactly the concatenation of
`/api/payments/` and the identifier, also for the empty identifier and for an
identifier containing a path separator, and a separator changes the targeted
route. -/
theorem retrieve_path_concat :
    (∀ payment_id : String,
      (Payments.retrieve reqClient payment_id).path =
        "/api/payments/" ++ payment_id) ∧
    (Payments.retrieve reqClient "").path = "/api/payments/" ∧
    (Payments.retrieve reqClient "a/b").path = "/api/payments/a/b" ∧
    (Payments.retrieve reqClient "a/b").path ≠ (Payments.retrieve reqClient "a").path :=
  ⟨fun _ => rfl, by decide, by decide, by decide⟩

/-- Witness for C3: at concrete inputs, `submit_tx` and `confirm` build the
same body. -/
theorem submit_tx_confirm_same_shape_witness :
    (Payments.submit_tx reqClient "pay_1" "0xhash" "0xpayer" none none none).data =
      (Payments.confirm reqClient "pay_1" "0xhash" "0xpayer" none none none).data :=
  (submit_tx_confirm_same_shape.1 "pay_1" "0xhash" "0xpayer" none none none).1

/-- Witness for C9: the one entry of the body built by `expire` at a concrete
payment id carries a non-null value. -/
theorem no_null_values_witness :
    (("paymentId", Value.str "pay_9") : String × Value).2 ≠ Value.null :=
  no_null_values.2.2.2.2 "pay_9" ("paymentId", Value.str "pay_9")
    (by simp [Payments.expireData])

/-- Witness for C10: at a concrete identifier the retrieve path is the plain
concatenation. -/
theorem retrieve_path_concat_witness :
    (Payments.retrieve reqClient "pay_123").path = "/api/payments/" ++ "pay_123" :=
  retrieve_path_concat.1 "pay_123"

end ArcPay
